import Mathlib

/-!
Verification of the drone k8s-client plugin's event-orchestration core.

The Go source is shallowly embedded: the cluster API (watch channels, pod
log streams, PVC get/create, job delete) is abstracted as explicit inputs
(`Option String` errors, `Except` results), the process-wide
`watcherStatusMap` and the `sync.WaitGroup` counter are threaded as
explicit state, and goroutine spawns are recorded as counters on that
state.  Event handlers are translated branch-for-branch from
`handleJobEvent`, `handlePodEvent`, `WatchLogs`, `CreateOrGetPVC`,
`assembleJob`, `DecorateJob`, `DeleteJob` and `Cleanup`.
-/

namespace K8sPlugin

/-- `watch.EventType` from k8s.io/apimachinery: Added, Modified, Deleted,
Error, plus any other (unhandled) kind. -/
inductive EventType where
  | added
  | modified
  | deleted
  | error
  | unknown
  deriving DecidableEq, Repr

/-- The part of `v1.JobStatus` the handler reads: failed and succeeded
pod counts (int32 in Go, non-negative in practice). -/
structure JobStatus where
  failed : Nat
  succeeded : Nat
  deriving DecidableEq, Repr

/-- A job watch event: `watch.Event` whose payload is a `*v1.Job`. -/
structure JobEvent where
  etype : EventType
  status : JobStatus
  deriving DecidableEq, Repr

/-- The mutable state the job-level handler touches: the job watcher's
stop state (the `watch.Interface` plus a count of `Stop()` calls), the
`watcherStatusMap["pod"]` flag, the number of `go p.PodEvents(...)`
spawns, and the `sync.WaitGroup` counter (`Wg.Add` / `Wg.Done`). -/
structure JobWatchState where
  stopped : Bool
  stopCount : Nat
  podActive : Bool
  podWatchersSpawned : Nat
  wgCount : Nat
  deriving DecidableEq, Repr

/-- Initial state: `watcherStatusMap` starts all-false, nothing spawned,
WaitGroup at zero, watcher open. -/
def initialJobWatchState : JobWatchState :=
  { stopped := false, stopCount := 0, podActive := false
    podWatchersSpawned := 0, wgCount := 0 }

/-- The error message built at the failed-pods branch of
`handleJobEvent` (`fmt.Sprintf("there are [ %d ] failed pods", ...)`). -/
def failedPodsMsg (n : Nat) : String :=
  "there are [ " ++ toString n ++ " ] failed pods"

/-- `(p *Plugin) handleJobEvent`, translated branch-for-branch.
`watchPod` is the outcome of the `p.WatchPod(clientSet)` call: `none`
means the pod watch opened (the source then flips
`watcherStatusMap["pod"]` on and returns the watcher), `some e` means it
failed with error `e` (the source flips the flag off and returns the
error).  The returned `Option String` is `handleJobEvent`'s Go `error`
result. -/
def handleJobEvent (watchPod : Option String) (s : JobWatchState)
    (e : JobEvent) : JobWatchState × Option String :=
  match e.etype with
  | .added => (s, none)
  | .modified =>
      if e.status.failed > 0 then
        ({ s with stopped := true, stopCount := s.stopCount + 1 },
          some (failedPodsMsg e.status.failed))
      else if e.status.succeeded > 0 then
        ({ s with stopped := true, stopCount := s.stopCount + 1 }, none)
      else if s.podActive then
        (s, none)
      else
        match watchPod with
        | some err => ({ s with podActive := false }, some err)
        | none =>
            ({ s with podActive := true
                      podWatchersSpawned := s.podWatchersSpawned + 1
                      wgCount := s.wgCount + 1 }, none)
  | .deleted =>
      ({ s with stopped := true, stopCount := s.stopCount + 1 }, none)
  | .error => (s, none)
  | .unknown => (s, none)

/-- `(p *Plugin) JobEvents`: ranges over the watcher's result channel,
returning the first handler error; once `Stop()` has been called the
channel is closed, the range ends, and the loop returns `nil`.  The
pending event stream is the input list. -/
def JobEvents (watchPod : Option String) :
    JobWatchState → List JobEvent → JobWatchState × Option String
  | s, [] => (s, none)
  | s, e :: rest =>
      let r := handleJobEvent watchPod s e
      match r.2 with
      | some err => (r.1, some err)
      | none =>
          if r.1.stopped then (r.1, none)
          else JobEvents watchPod r.1 rest

/-! ### Pod events and log streaming -/

/-- The mutable state the pod-level handler and `WatchLogs` touch: the
pod watcher's stop state, the `watcherStatusMap["pod"]` and
`watcherStatusMap["log"]` flags, the number of `go p.WatchLogs(...)`
spawns, and the WaitGroup counter. -/
structure PodWatchState where
  podStopped : Bool
  podStopCount : Nat
  podActive : Bool
  logActive : Bool
  logStreamersSpawned : Nat
  wgCount : Nat
  deriving DecidableEq, Repr

/-- `(p *Plugin) handlePodEvent`, translated branch-for-branch.  It
returns the updated state together with whether this event spawned a
`WatchLogs` goroutine (`go p.WatchLogs(payload.GetName(), clientSet)`).
The handler itself returns no error in the source (`func ... { ... }`
with no result). -/
def handlePodEvent (s : PodWatchState) (e : EventType) :
    PodWatchState × Bool :=
  match e with
  | .added => (s, false)
  | .modified =>
      if s.logActive then
        (s, false)
      else
        ({ s with logStreamersSpawned := s.logStreamersSpawned + 1 }, true)
  | .error => (s, false)
  | .deleted =>
      ({ s with podStopped := true, podStopCount := s.podStopCount + 1
                podActive := false }, false)
  | .unknown => (s, false)

/-- The first half of `(p *Plugin) WatchLogs`, up to and including the
`req.Stream()` call: on open failure the function logs, flips
`watcherStatusMap["log"]` off and returns (without touching the
WaitGroup); on success it flips the flag on and proceeds to the blocking
copy.  `streamOk` is the outcome of `req.Stream()`. -/
def watchLogsOpen (streamOk : Bool) (s : PodWatchState) : PodWatchState :=
  if streamOk then { s with logActive := true }
  else { s with logActive := false }

/-- The second half of `WatchLogs`, after `io.Copy` returns (however the
copy ended): flip `watcherStatusMap["log"]` off and call `p.Wg.Done()`. -/
def watchLogsFinish (s : PodWatchState) : PodWatchState :=
  { s with logActive := false, wgCount := s.wgCount - 1 }

/-- The whole `(p *Plugin) WatchLogs` run as one step: open the stream,
and when it opened, copy until the source closes and then signal the
WaitGroup.  On open failure the early `return` skips `Wg.Done()`. -/
def WatchLogs (streamOk : Bool) (s : PodWatchState) : PodWatchState :=
  if streamOk then watchLogsFinish (watchLogsOpen true s)
  else watchLogsOpen false s

/-- `(p *Plugin) PodEvents` under the sequential interleaving in which a
spawned `WatchLogs` goroutine performs its stream-open step (the part
that writes `watcherStatusMap["log"]`) before the next pod event is
handled.  `streamOk` is the outcome of each `req.Stream()` call. -/
def PodEventsSeq (streamOk : Bool) :
    PodWatchState → List EventType → PodWatchState
  | s, [] => s
  | s, e :: rest =>
      let r := handlePodEvent s e
      let s1 := if r.2 then watchLogsOpen streamOk r.1 else r.1
      if s1.podStopped then s1 else PodEventsSeq streamOk s1 rest

/-! ### The top-level run's wait-then-cleanup tail -/

/-- Phases of the tail of `run` (main.go): after `JobEvents` returns
`nil` the main goroutine sits in `plugin.Wg.Wait()`, then calls
`plugin.Cleanup` and returns. -/
inductive RunPhase where
  | waiting
  | cleaningUp
  deriving DecidableEq, Repr

/-- One scheduler step of the main goroutine while it is in
`Wg.Wait()`: `sync.WaitGroup.Wait` returns exactly when the counter is
zero, so the run moves on to cleanup only then. -/
def runWaitStep : RunPhase → Nat → RunPhase
  | .waiting, wg => if wg = 0 then .cleaningUp else .waiting
  | .cleaningUp, _ => .cleaningUp

/-! ### Environment filtering -/

/-- `pluginEnvPrefix` from the source. -/
def pluginEnvPrefix : String := "PLUGIN_"

/-- `droneEnvPrefix` from the source. -/
def droneEnvPrefix : String := "DRONE_"

/-- `coreV1.EnvVar`: the name/value pair placed in the container env. -/
structure EnvVar where
  name : String
  value : String
  deriving DecidableEq, Repr

/-- The parts of the `Plugin` struct the verified operations read.  The
Go map `Env` is carried as an association list (Go map iteration order
is unspecified, so every claim about the derived environment is stated
up to membership). -/
structure Plugin where
  JobName : String
  Namespace : String
  Image : String
  Workspace : String
  WorkspacePVC : String
  ServiceAccount : String
  OriginalCommands : List String
  LabelSelector : List (String × String)
  Env : List (String × String)
  deriving DecidableEq, Repr

/-- Go's `strings.HasPrefix`, on the string's character list. -/
def hasPrefix (pre s : String) : Bool :=
  pre.data.isPrefixOf s.data

/-- `(p *Plugin) originalEnvVars`: keep exactly the entries whose key
has the plugin prefix or the drone prefix (`strings.HasPrefix`). -/
def originalEnvVars (p : Plugin) : List EnvVar :=
  (p.Env.filter (fun kv =>
      hasPrefix pluginEnvPrefix kv.1 || hasPrefix droneEnvPrefix kv.1)).map
    (fun kv => { name := kv.1, value := kv.2 })

/-! ### Persistent volume claims -/

/-- `coreV1.PersistentVolumeAccessMode`; the source only ever sets
`ReadWriteOnce`. -/
inductive AccessMode where
  | readWriteOnce
  | readOnlyMany
  | readWriteMany
  deriving DecidableEq, Repr

/-- The fields of `coreV1.PersistentVolumeClaim` the source sets or
returns: object metadata plus the spec's access modes and the storage
request (`resource.MustParse("3Gi")` kept as its literal). -/
structure PersistentVolumeClaim where
  name : String
  labels : List (String × String)
  accessModes : List AccessMode
  storageRequest : String
  deriving DecidableEq, Repr

/-- The claim literal built inside `CreateOrGetPVC` before the create
call: name `p.WorkspacePVC`, the plugin's labels, `ReadWriteOnce`, and a
3Gi storage request. -/
def newPVC (p : Plugin) : PersistentVolumeClaim :=
  { name := p.WorkspacePVC, labels := p.LabelSelector
    accessModes := [AccessMode.readWriteOnce], storageRequest := "3Gi" }

/-- `(p *Plugin) CreateOrGetPVC`.  The cluster is abstracted by the two
call outcomes: `getResult` is what `PersistentVolumeClaims(ns).Get`
returns, `createResult` maps the claim passed to
`PersistentVolumeClaims(ns).Create` to that call's outcome.  The second
component records the argument of every create call issued. -/
def CreateOrGetPVC (p : Plugin)
    (getResult : Except String PersistentVolumeClaim)
    (createResult : PersistentVolumeClaim →
      Except String PersistentVolumeClaim) :
    Except String PersistentVolumeClaim × List PersistentVolumeClaim :=
  match getResult with
  | .ok claim => (.ok claim, [])
  | .error _ =>
      let pvc := newPVC p
      match createResult pvc with
      | .ok claim => (.ok claim, [pvc])
      | .error e => (.error e, [pvc])

/-! ### Job assembly -/

/-- `coreV1.VolumeMount`. -/
structure VolumeMount where
  name : String
  mountPath : String
  deriving DecidableEq, Repr

/-- `coreV1.SecurityContext`, restricted to the one field set. -/
structure SecurityContext where
  privileged : Bool
  deriving DecidableEq, Repr

/-- `coreV1.PullPolicy`. -/
inductive PullPolicy where
  | ifNotPresent
  | always
  | never
  deriving DecidableEq, Repr

/-- `coreV1.RestartPolicy`. -/
inductive RestartPolicy where
  | never
  | always
  | onFailure
  deriving DecidableEq, Repr

/-- The fields of `coreV1.Container` the source sets.  An unset
`Command` / `Args` (Go nil slice) is the empty list. -/
structure Container where
  name : String
  image : String
  workingDir : String
  securityContext : SecurityContext
  imagePullPolicy : PullPolicy
  env : List EnvVar
  volumeMounts : List VolumeMount
  command : List String
  args : List String
  deriving DecidableEq, Repr

/-- A `coreV1.Volume` whose source is a PVC reference, the only variant
the plugin builds. -/
structure Volume where
  name : String
  claimName : String
  deriving DecidableEq, Repr

/-- The fields of `coreV1.PodSpec` the source sets. -/
structure PodSpec where
  serviceAccountName : String
  containers : List Container
  restartPolicy : RestartPolicy
  volumes : List Volume
  deriving DecidableEq, Repr

/-- The fields of `v1.Job` the source sets: top-level metadata and the
pod template (whose metadata repeats the name and labels). -/
structure Job where
  name : String
  labels : List (String × String)
  templateName : String
  templateLabels : List (String × String)
  spec : PodSpec
  deriving DecidableEq, Repr

/-- `(p *Plugin) assembleJob`, translated field-for-field (the Go
function also returns an `error` that is always `nil`). -/
def assembleJob (p : Plugin) : Job :=
  { name := p.JobName
    labels := p.LabelSelector
    templateName := p.JobName
    templateLabels := p.LabelSelector
    spec :=
      { serviceAccountName := p.ServiceAccount
        containers :=
          [{ name := p.JobName
             image := p.Image
             workingDir := p.Workspace
             securityContext := { privileged := false }
             imagePullPolicy := PullPolicy.ifNotPresent
             env := originalEnvVars p
             volumeMounts := [{ name := p.JobName, mountPath := p.Workspace }]
             command := []
             args := [] }]
        restartPolicy := RestartPolicy.never
        volumes := [{ name := p.JobName, claimName := p.WorkspacePVC }] } }

/-- `(p *Plugin) DecorateJob`: when an override command was supplied,
replace the first container's command with `["sh", "-c"]` and its args
with the override.  The Go code indexes `Containers[0]`, which panics on
an empty slice; that partiality is an `Option`. -/
def DecorateJob (p : Plugin) (job : Job) : Option Job :=
  if p.OriginalCommands.length > 0 then
    match job.spec.containers with
    | [] => none
    | c :: rest =>
        some { job with spec :=
          { job.spec with containers :=
              { c with command := ["sh", "-c"], args := p.OriginalCommands }
                :: rest } }
  else
    some job

/-! ### Deletion and cleanup -/

/-- A deletion issued against the cluster, with the grace period the
source attaches (`gracePeriodSeconds = int64(2)`). -/
inductive ClusterDelete where
  | job (name : String) (gracePeriodSeconds : Nat)
  | pvc (name : String) (gracePeriodSeconds : Nat)
  deriving DecidableEq, Repr

/-- `(p *Plugin) DeleteJob`: issues one job deletion with a 2 second
grace period and passes the API outcome through (`none` is Go `nil`). -/
def DeleteJob (p : Plugin) (apiResult : Option String) :
    List ClusterDelete × Option String :=
  ([ClusterDelete.job p.JobName 2], apiResult)

/-- `(p *Plugin) Cleanup`: calls `DeleteJob` and discards its result;
the `DeletePVC` call is commented out in the source.  Returns the
deletions issued (the Go function has no result). -/
def Cleanup (p : Plugin) (deleteJobApiResult : Option String) :
    List ClusterDelete :=
  (DeleteJob p deleteJobApiResult).1

/-- The tail of `run` (main.go) after `JobEvents` returned `nil` and
`Wg.Wait()` drained: `Cleanup` runs and `run` returns `nil` — nothing
inspects the deletion outcome. -/
def runTail (p : Plugin) (deleteJobApiResult : Option String) :
    List ClusterDelete × Option String :=
  (Cleanup p deleteJobApiResult, none)

/-! ## Claims -/

/-- C1: a job Modified event with failed-pod count > 0 makes
`handleJobEvent` stop the subscription (exactly one more `Stop()` call)
and makes `JobEvents` terminate at once — no later event is consumed —
with the error whose message encodes the failed count.  The conclusion
holds whatever the succeeded count is, because the failed-count branch
is evaluated before the succeeded-count branch. -/
theorem jobFailed_terminates_run (watchPod : Option String)
    (s : JobWatchState) (e : JobEvent) (rest : List JobEvent)
    (hm : e.etype = EventType.modified) (hf : 0 < e.status.failed) :
    JobEvents watchPod s (e :: rest) =
      ({ s with stopped := true, stopCount := s.stopCount + 1 },
        some (failedPodsMsg e.status.failed)) := by
  simp [JobEvents, handleJobEvent, hm, hf]

/-- Witness for C1: a Modified event with 2 failed pods (and 5 succeeded
pods, showing the failed branch wins) from the initial state. -/
theorem jobFailed_terminates_run_witness :
    JobEvents none initialJobWatchState
        [{ etype := EventType.modified
           status := { failed := 2, succeeded := 5 } }] =
      ({ initialJobWatchState with stopped := true, stopCount := 1 },
        some "there are [ 2 ] failed pods") := by
  have h := jobFailed_terminates_run none initialJobWatchState
      { etype := EventType.modified, status := { failed := 2, succeeded := 5 } }
      [] rfl (by decide)
  simpa [failedPodsMsg] using h

/-- C2: a job Modified event with succeeded-pod count > 0 (and no failed
pods) makes `handleJobEvent` stop the subscription exactly once and
makes `JobEvents` terminate with no error; in particular the scenario
`[Added, Modified(succeeded=1)]` from the initial state returns no
error, stops once, and never spawns a pod watcher (the final state
records zero spawns). -/
theorem jobSucceeded_terminates_run (watchPod : Option String)
    (s : JobWatchState) (e : JobEvent) (rest : List JobEvent)
    (hm : e.etype = EventType.modified) (hf : e.status.failed = 0)
    (hs : 0 < e.status.succeeded) :
    JobEvents watchPod s (e :: rest) =
      ({ s with stopped := true, stopCount := s.stopCount + 1 }, none) ∧
    JobEvents none initialJobWatchState
        [{ etype := EventType.added, status := { failed := 0, succeeded := 0 } },
         { etype := EventType.modified, status := { failed := 0, succeeded := 1 } }] =
      ({ initialJobWatchState with stopped := true, stopCount := 1 }, none) := by
  constructor
  · simp [JobEvents, handleJobEvent, hm, hf, hs]
  · decide

/-- Witness for C2: a Modified event with 1 succeeded pod from the
initial state. -/
theorem jobSucceeded_terminates_run_witness :
    JobEvents none initialJobWatchState
        [{ etype := EventType.modified
           status := { failed := 0, succeeded := 1 } }] =
      ({ initialJobWatchState with stopped := true, stopCount := 1 }, none) :=
  (jobSucceeded_terminates_run none initialJobWatchState
      { etype := EventType.modified, status := { failed := 0, succeeded := 1 } }
      [] rfl rfl (by decide)).1

/-- A job Modified event that is neither failed nor succeeded: the kind
that can trigger the pod-watcher spawn. -/
def quietModified : JobEvent :=
  { etype := EventType.modified, status := { failed := 0, succeeded := 0 } }

/-- Once the pod-active flag is set and the watcher is not stopped,
further quiet Modified events leave the state untouched: the flag is
read before any spawn, so no second pod watcher is ever opened. -/
theorem JobEvents_podActive_fixed (watchPod : Option String)
    (s : JobWatchState) (hp : s.podActive = true) (hs : s.stopped = false) :
    ∀ n : Nat, JobEvents watchPod s (List.replicate n quietModified) = (s, none) := by
  intro n
  induction n with
  | zero => simp [JobEvents]
  | succ k ih =>
      have h1 : handleJobEvent watchPod s quietModified = (s, none) := by
        simp [handleJobEvent, quietModified, hp]
      simp [List.replicate_succ, JobEvents, h1, hs, ih]

/-- C5: for every N ≥ 1, running the job-event loop from the initial
state on N quiet Modified events (with the pod watch opening
successfully) spawns exactly one pod watcher: the first event finds the
pod-active flag unset, opens the watch (which sets the flag) and spawns
the `PodEvents` task; every later event finds the flag set and spawns
nothing, so the final state records one spawn, an active pod watcher,
and a still-open job subscription. -/
theorem podWatcher_spawned_once (n : Nat) (hn : 1 ≤ n) :
    JobEvents none initialJobWatchState (List.replicate n quietModified) =
      ({ initialJobWatchState with
          podActive := true, podWatchersSpawned := 1, wgCount := 1 }, none) := by
  obtain ⟨m, rfl⟩ : ∃ m, n = m + 1 := ⟨n - 1, (Nat.succ_pred_eq_of_pos hn).symm⟩
  have hfix := JobEvents_podActive_fixed none
      ({ initialJobWatchState with
          podActive := true, podWatchersSpawned := 1, wgCount := 1 }) rfl rfl m
  simp only [List.replicate_succ, JobEvents, handleJobEvent, quietModified,
    initialJobWatchState]
  simpa [initialJobWatchState] using hfix

/-- Witness for C5: three quiet Modified events yield exactly one
spawned pod watcher. -/
theorem podWatcher_spawned_once_witness :
    JobEvents none initialJobWatchState (List.replicate 3 quietModified) =
      ({ initialJobWatchState with
          podActive := true, podWatchersSpawned := 1, wgCount := 1 }, none) :=
  podWatcher_spawned_once 3 (by decide)

/-- The state in which `PodEvents` starts: `WatchPod` has just set the
pod flag, `handleJobEvent` has done `Wg.Add(1)`, and no log streamer
exists yet. -/
def initialPodWatchState : PodWatchState :=
  { podStopped := false, podStopCount := 0, podActive := true
    logActive := false, logStreamersSpawned := 0, wgCount := 1 }

/-- Once the log-active flag is set and the pod watcher is not stopped,
further pod Modified events leave the state untouched. -/
theorem PodEventsSeq_logActive_fixed (streamOk : Bool) (s : PodWatchState)
    (hl : s.logActive = true) (hs : s.podStopped = false) :
    ∀ n : Nat,
      PodEventsSeq streamOk s (List.replicate n EventType.modified) = s := by
  intro n
  induction n with
  | zero => simp [PodEventsSeq]
  | succ k ih =>
      have h1 : handlePodEvent s EventType.modified = (s, false) := by
        simp [handlePodEvent, hl]
      simp [List.replicate_succ, PodEventsSeq, h1, hs, ih]

/-- C6: `handlePodEvent` spawns a `WatchLogs` task on a Modified event
exactly when the log-active flag is unset, and is the identity (spawns
nothing) when the flag is set; hence, under the interleaving in which a
spawned streamer opens its stream (setting the flag) before the next
event is handled, any run of N ≥ 1 pod Modified events spawns exactly
one log streamer. -/
theorem logStreamer_spawned_once :
    (∀ s : PodWatchState, s.logActive = true →
      handlePodEvent s EventType.modified = (s, false)) ∧
    (∀ s : PodWatchState, s.logActive = false →
      handlePodEvent s EventType.modified =
        ({ s with logStreamersSpawned := s.logStreamersSpawned + 1 }, true)) ∧
    (∀ n : Nat, 1 ≤ n →
      PodEventsSeq true initialPodWatchState
          (List.replicate n EventType.modified) =
        { initialPodWatchState with
            logActive := true, logStreamersSpawned := 1 }) := by
  refine ⟨?_, ?_, ?_⟩
  · intro s hl
    simp [handlePodEvent, hl]
  · intro s hl
    simp [handlePodEvent, hl]
  · intro n hn
    obtain ⟨m, rfl⟩ : ∃ m, n = m + 1 := ⟨n - 1, (Nat.succ_pred_eq_of_pos hn).symm⟩
    have hfix := PodEventsSeq_logActive_fixed true
        ({ initialPodWatchState with
            logActive := true, logStreamersSpawned := 1 }) rfl rfl m
    simp only [List.replicate_succ, PodEventsSeq, handlePodEvent,
      watchLogsOpen, initialPodWatchState]
    simpa [initialPodWatchState] using hfix

/-- Witness for C6: three Modified events from the fresh pod-watch state
yield exactly one spawned log streamer. -/
theorem logStreamer_spawned_once_witness :
    PodEventsSeq true initialPodWatchState
        (List.replicate 3 EventType.modified) =
      { initialPodWatchState with
          logActive := true, logStreamersSpawned := 1 } :=
  logStreamer_spawned_once.2.2 3 (by decide)

/-- C3 counterexample: a pod-subscription open failure IS propagated to
the top-level run.  On a quiet Modified event, when `WatchPod` fails
with "could not watch pod", `handleJobEvent` returns that error and
`JobEvents` — whose error `run` returns verbatim — terminates with it;
with a successful `WatchPod` the same event stream ends with no error.
So the run's overall result is not determined solely by the job-level
state machine, contradicting the claim. -/
theorem podWatchError_reaches_run_counterexample :
    (JobEvents (some "could not watch pod") initialJobWatchState
        [quietModified]).2 = some "could not watch pod" ∧
    (JobEvents none initialJobWatchState [quietModified]).2 = none := by
  constructor <;> rfl

/-- C3 amended: a log-stream open failure is recovered locally —
`WatchLogs` clears the log-active flag and returns, producing no error
and leaving the WaitGroup untouched — but a pod-subscription open
failure (`WatchPod` returning an error) is returned by `handleJobEvent`
on a quiet Modified event and so propagates through `JobEvents` to the
top-level run as its error. -/
theorem logOpenFailure_local_podWatchError_fatal (s : JobWatchState)
    (e : JobEvent) (rest : List JobEvent) (err : String)
    (t : PodWatchState) (hm : e.etype = EventType.modified)
    (hf : e.status.failed = 0) (hs : e.status.succeeded = 0)
    (hp : s.podActive = false) :
    WatchLogs false t = { t with logActive := false } ∧
    JobEvents (some err) s (e :: rest) =
      ({ s with podActive := false }, some err) := by
  constructor
  · simp [WatchLogs, watchLogsOpen]
  · simp [JobEvents, handleJobEvent, hm, hf, hs, hp]

/-- Witness for the amended C3: concrete log-open failure and concrete
pod-watch failure. -/
theorem logOpenFailure_local_podWatchError_fatal_witness :
    WatchLogs false initialPodWatchState =
      { initialPodWatchState with logActive := false } ∧
    JobEvents (some "could not watch pod") initialJobWatchState
        [quietModified] =
      ({ initialJobWatchState with podActive := false },
        some "could not watch pod") :=
  logOpenFailure_local_podWatchError_fatal initialJobWatchState
    quietModified [] "could not watch pod" initialPodWatchState
    rfl rfl rfl rfl

/-- C4 counterexample: the CompletionCounter is NOT decremented when
opening the log stream fails.  From the fresh pod-watch state (counter
at 1 after the `Wg.Add(1)` in `handleJobEvent`), a `WatchLogs` run whose
`req.Stream()` call fails returns early without `Wg.Done()`, leaving the
counter at 1 — the claim requires it to drop to 0. -/
theorem completionCounter_not_decremented_counterexample :
    (WatchLogs false initialPodWatchState).wgCount =
        initialPodWatchState.wgCount ∧
    initialPodWatchState.wgCount = 1 := by
  constructor <;> rfl

/-- C4 amended: the counter is incremented exactly once, in
`handleJobEvent` before the pod-watcher task (and hence any log-stream
task) is spawned; a log-stream task decrements it on ending only when
its stream opened successfully, while on open failure it returns with
the counter unchanged (only the log flag cleared); and the run's
`Wg.Wait()` does not proceed to cleanup while the counter is positive,
proceeding exactly when it reaches zero. -/
theorem completionCounter_discipline :
    (∀ (s : JobWatchState) (e : JobEvent),
      e.etype = EventType.modified → e.status.failed = 0 →
      e.status.succeeded = 0 → s.podActive = false →
      (handleJobEvent none s e).1.wgCount = s.wgCount + 1) ∧
    (∀ t : PodWatchState,
      (WatchLogs true t).wgCount = t.wgCount - 1 ∧
      (WatchLogs false t).wgCount = t.wgCount ∧
      (WatchLogs false t).logActive = false) ∧
    (∀ wg : Nat, 0 < wg →
      runWaitStep RunPhase.waiting wg = RunPhase.waiting) ∧
    runWaitStep RunPhase.waiting 0 = RunPhase.cleaningUp := by
  refine ⟨?_, ?_, ?_, rfl⟩
  · intro s e hm hf hs hp
    simp [handleJobEvent, hm, hf, hs, hp]
  · intro t
    refine ⟨rfl, rfl, rfl⟩
  · intro wg hwg
    simp [runWaitStep, Nat.pos_iff_ne_zero.mp hwg]

/-- Witness for the amended C4: the increment at a concrete quiet
Modified event, and `Wg.Wait()` blocking at a concrete positive
counter. -/
theorem completionCounter_discipline_witness :
    (handleJobEvent none initialJobWatchState quietModified).1.wgCount = 1 ∧
    runWaitStep RunPhase.waiting 2 = RunPhase.waiting :=
  ⟨completionCounter_discipline.1 initialJobWatchState quietModified
      rfl rfl rfl rfl,
    completionCounter_discipline.2.2.1 2 (by decide)⟩

/-- A plugin with the claim's example environment
`{"PLUGIN_A":"x","FOO":"y","DRONE_B":"z"}`. -/
def examplePlugin : Plugin :=
  { JobName := "job", Namespace := "default", Image := "img"
    Workspace := "/ws", WorkspacePVC := "pvc", ServiceAccount := "sa"
    OriginalCommands := [], LabelSelector := [("label-name", "labelValue")]
    Env := [("PLUGIN_A", "x"), ("FOO", "y"), ("DRONE_B", "z")] }

/-- C7: the derived container environment holds exactly the entries of
the plugin's environment whose key starts with "PLUGIN_" or "DRONE_",
values unchanged; on the example map
`{"PLUGIN_A":"x","FOO":"y","DRONE_B":"z"}` its member set is exactly
`{PLUGIN_A:x, DRONE_B:z}`. -/
theorem originalEnvVars_spec :
    (∀ (p : Plugin) (ev : EnvVar),
      ev ∈ originalEnvVars p ↔
        (ev.name, ev.value) ∈ p.Env ∧
          (hasPrefix pluginEnvPrefix ev.name = true ∨
            hasPrefix droneEnvPrefix ev.name = true)) ∧
    (∀ ev : EnvVar,
      ev ∈ originalEnvVars examplePlugin ↔
        ev = { name := "PLUGIN_A", value := "x" } ∨
          ev = { name := "DRONE_B", value := "z" }) := by
  have hmem : ∀ (p : Plugin) (ev : EnvVar),
      ev ∈ originalEnvVars p ↔
        (ev.name, ev.value) ∈ p.Env ∧
          (hasPrefix pluginEnvPrefix ev.name = true ∨
            hasPrefix droneEnvPrefix ev.name = true) := by
    intro p ev
    constructor
    · intro h
      simp only [originalEnvVars, List.mem_map, List.mem_filter] at h
      obtain ⟨⟨k, v⟩, ⟨hin, hpre⟩, rfl⟩ := h
      exact ⟨hin, by simpa using hpre⟩
    · rintro ⟨hin, hpre⟩
      simp only [originalEnvVars, List.mem_map, List.mem_filter]
      exact ⟨(ev.name, ev.value), ⟨hin, by simpa using hpre⟩, rfl⟩
  refine ⟨hmem, ?_⟩
  intro ev
  have hconc : originalEnvVars examplePlugin =
      [{ name := "PLUGIN_A", value := "x" },
        { name := "DRONE_B", value := "z" }] := by decide
  rw [hconc]
  simp

/-- Witness for C7: the PLUGIN_A entry is in the example's derived
environment. -/
theorem originalEnvVars_spec_witness :
    ({ name := "PLUGIN_A", value := "x" } : EnvVar) ∈
        originalEnvVars examplePlugin ↔
      ({ name := "PLUGIN_A", value := "x" } : EnvVar) =
          { name := "PLUGIN_A", value := "x" } ∨
        ({ name := "PLUGIN_A", value := "x" } : EnvVar) =
          { name := "DRONE_B", value := "z" } :=
  originalEnvVars_spec.2 { name := "PLUGIN_A", value := "x" }

/-- C8: get-or-create on the storage claim is idempotent on an existing
claim — a successful lookup returns it with no error and issues no
create call — and on any lookup error exactly one create call is issued,
for the fixed claim with a 3Gi request and single-writer (ReadWriteOnce)
access, whose outcome (claim or error) is returned verbatim. -/
theorem CreateOrGetPVC_spec :
    (∀ (p : Plugin) (c : PersistentVolumeClaim)
        (f : PersistentVolumeClaim → Except String PersistentVolumeClaim),
      CreateOrGetPVC p (Except.ok c) f = (Except.ok c, [])) ∧
    (∀ (p : Plugin) (e : String)
        (f : PersistentVolumeClaim → Except String PersistentVolumeClaim),
      (CreateOrGetPVC p (Except.error e) f).1 = f (newPVC p) ∧
      (CreateOrGetPVC p (Except.error e) f).2 = [newPVC p]) ∧
    (∀ p : Plugin, (newPVC p).storageRequest = "3Gi" ∧
      (newPVC p).accessModes = [AccessMode.readWriteOnce]) := by
  refine ⟨fun p c f => rfl, ?_, fun p => ⟨rfl, rfl⟩⟩
  intro p e f
  cases hfc : f (newPVC p) <;> simp [CreateOrGetPVC, hfc]

/-- Witness for C8: a successful lookup at the example plugin returns
the existing claim and issues no create call. -/
theorem CreateOrGetPVC_spec_witness :
    CreateOrGetPVC examplePlugin (Except.ok (newPVC examplePlugin))
        (fun c => Except.ok c) =
      (Except.ok (newPVC examplePlugin), []) :=
  CreateOrGetPVC_spec.1 examplePlugin (newPVC examplePlugin)
    (fun c => Except.ok c)

/-- C9: the assembled and decorated workload always has a single
container, restart policy Never, pull policy IfNotPresent, an
unprivileged security context, exactly one volume bound to the storage
claim and mounted (under the same name) at the working directory, and
its command is replaced by `["sh", "-c"]` with the override as args
exactly when a non-empty override command was supplied (otherwise
command and args stay empty). -/
theorem assembleJob_decorated_shape (p : Plugin) :
    ∃ j : Job, DecorateJob p (assembleJob p) = some j ∧
      j.spec.containers.length = 1 ∧
      j.spec.restartPolicy = RestartPolicy.never ∧
      j.spec.volumes = [{ name := p.JobName, claimName := p.WorkspacePVC }] ∧
      ∀ c ∈ j.spec.containers,
        c.imagePullPolicy = PullPolicy.ifNotPresent ∧
        c.securityContext = { privileged := false } ∧
        c.volumeMounts = [{ name := p.JobName, mountPath := p.Workspace }] ∧
        (p.OriginalCommands ≠ [] →
          c.command = ["sh", "-c"] ∧ c.args = p.OriginalCommands) ∧
        (p.OriginalCommands = [] → c.command = [] ∧ c.args = []) := by
  by_cases hoc : p.OriginalCommands = []
  · refine ⟨assembleJob p, ?_, rfl, rfl, rfl, ?_⟩
    · simp [DecorateJob, hoc]
    · intro c hc
      simp only [assembleJob, List.mem_singleton] at hc
      subst hc
      exact ⟨rfl, rfl, rfl, fun h => absurd hoc h, fun _ => ⟨rfl, rfl⟩⟩
  · have hlen : p.OriginalCommands.length > 0 :=
      List.length_pos.mpr hoc
    refine ⟨{ assembleJob p with spec :=
        { (assembleJob p).spec with containers :=
            [{ name := p.JobName
               image := p.Image
               workingDir := p.Workspace
               securityContext := { privileged := false }
               imagePullPolicy := PullPolicy.ifNotPresent
               env := originalEnvVars p
               volumeMounts := [{ name := p.JobName, mountPath := p.Workspace }]
               command := ["sh", "-c"]
               args := p.OriginalCommands }] } },
      ?_, rfl, rfl, rfl, ?_⟩
    · simp [DecorateJob, hlen, assembleJob]
    · intro c hc
      simp only [List.mem_singleton] at hc
      subst hc
      exact ⟨rfl, rfl, rfl, fun _ => ⟨rfl, rfl⟩, fun h => absurd h hoc⟩

/-- Witness for C9: the shape facts at the example plugin with a
non-empty override command. -/
theorem assembleJob_decorated_shape_witness :
    ∃ j : Job,
      DecorateJob { examplePlugin with OriginalCommands := ["echo hi"] }
          (assembleJob { examplePlugin with OriginalCommands := ["echo hi"] }) =
        some j ∧
      j.spec.containers.length = 1 ∧
      j.spec.restartPolicy = RestartPolicy.never ∧
      j.spec.volumes = [{ name := "job", claimName := "pvc" }] ∧
      ∀ c ∈ j.spec.containers,
        c.imagePullPolicy = PullPolicy.ifNotPresent ∧
        c.securityContext = { privileged := false } ∧
        c.volumeMounts = [{ name := "job", mountPath := "/ws" }] ∧
        ((["echo hi"] : List String) ≠ [] →
          c.command = ["sh", "-c"] ∧ c.args = ["echo hi"]) ∧
        ((["echo hi"] : List String) = [] → c.command = [] ∧ c.args = []) :=
  assembleJob_decorated_shape
    { examplePlugin with OriginalCommands := ["echo hi"] }

/-- C10: cleanup issues exactly one deletion — the job's, with the 2 s
grace period — and in particular never deletes the storage claim; the
deletion outcome is discarded, so the cleanup ops are independent of it
and the run's tail returns `nil` whatever the deletion returned. -/
theorem Cleanup_deletes_job_only :
    (∀ (p : Plugin) (r : Option String),
      runTail p r = ([ClusterDelete.job p.JobName 2], none)) ∧
    (∀ (p : Plugin) (r : Option String) (name : String) (g : Nat),
      ClusterDelete.pvc name g ∉ Cleanup p r) ∧
    (∀ (p : Plugin) (r₁ r₂ : Option String), Cleanup p r₁ = Cleanup p r₂) := by
  refine ⟨fun p r => rfl, ?_, fun p r₁ r₂ => rfl⟩
  intro p r name g
  simp [Cleanup, DeleteJob]

/-- Witness for C10: the run's tail at the example plugin, with the job
deletion failing, still returns `nil` after deleting only the job. -/
theorem Cleanup_deletes_job_only_witness :
    runTail examplePlugin (some "delete failed") =
      ([ClusterDelete.job "job" 2], none) :=
  Cleanup_deletes_job_only.1 examplePlugin (some "delete failed")

end K8sPlugin
